import Mathlib

/-!
Shallow embedding of the `cnctext` text-engraving program
(`cnctext/geometry.py`, `cnctext/grbl.py`) and verification of the
specification claims against it.  Python floats are modelled as exact
rationals; Python dictionaries as association lists where the most
recent insertion is found first; raised exceptions as `Option`/`Except`
error values.
-/

namespace Cnctext

/-- A 2D point in label space (Python tuple `(x, y)`). -/
abbrev Point := ℚ × ℚ

/-- One polyline: an ordered list of points (`geometry.py` strokes). -/
abbrev Stroke := List Point

/-! ## Transformation (geometry.py, class Transformation)

The Python class stores a full 3×3 homogeneous matrix (a numpy array);
we embed it as nine rational entries. -/

/-- A 3×3 matrix of rationals, the numpy array held by `Transformation`. -/
structure Mat3 where
  m00 : ℚ
  m01 : ℚ
  m02 : ℚ
  m10 : ℚ
  m11 : ℚ
  m12 : ℚ
  m20 : ℚ
  m21 : ℚ
  m22 : ℚ
deriving DecidableEq

/-- Matrix product, the numpy `@` on 3×3 arrays. -/
def Mat3.mul (A B : Mat3) : Mat3 where
  m00 := A.m00 * B.m00 + A.m01 * B.m10 + A.m02 * B.m20
  m01 := A.m00 * B.m01 + A.m01 * B.m11 + A.m02 * B.m21
  m02 := A.m00 * B.m02 + A.m01 * B.m12 + A.m02 * B.m22
  m10 := A.m10 * B.m00 + A.m11 * B.m10 + A.m12 * B.m20
  m11 := A.m10 * B.m01 + A.m11 * B.m11 + A.m12 * B.m21
  m12 := A.m10 * B.m02 + A.m11 * B.m12 + A.m12 * B.m22
  m20 := A.m20 * B.m00 + A.m21 * B.m10 + A.m22 * B.m20
  m21 := A.m20 * B.m01 + A.m21 * B.m11 + A.m22 * B.m21
  m22 := A.m20 * B.m02 + A.m21 * B.m12 + A.m22 * B.m22

/-- The identity matrix, initial value of `Transformation.matrix`. -/
def Mat3.identity : Mat3 := ⟨1, 0, 0, 0, 1, 0, 0, 0, 1⟩

/-- `Transformation`: a coordinate transformation matrix. -/
structure Transformation where
  matrix : Mat3
deriving DecidableEq

/-- `Transformation.__init__(scale, translate)`: start from the identity
matrix; if a scale vector is given, assign the two diagonal entries
directly; if a translate vector is given, assign the last-column entries
directly (the source comments that delegating to `scale()`/`translate()`
would scale the translation vector). -/
def Transformation.init (scale translate : Option (ℚ × ℚ)) : Transformation :=
  let m := Mat3.identity
  let m := match scale with
    | some s => { m with m00 := s.1, m11 := s.2 }
    | none => m
  let m := match translate with
    | some t => { m with m02 := t.1, m12 := t.2 }
    | none => m
  ⟨m⟩

/-- `Transformation.scale(x, y)`: right-multiply by the elementary
scaling matrix. -/
def Transformation.scale (t : Transformation) (x y : ℚ) : Transformation :=
  ⟨t.matrix.mul ⟨x, 0, 0, 0, y, 0, 0, 0, 1⟩⟩

/-- `Transformation.translate(x, y)`: right-multiply by the elementary
translation matrix. -/
def Transformation.translate (t : Transformation) (x y : ℚ) : Transformation :=
  ⟨t.matrix.mul ⟨1, 0, x, 0, 1, y, 0, 0, 1⟩⟩

/-- `Transformation.__call__(pt)`: homogeneous multiplication of the
matrix with `(x, y, 1)`, keeping the first two coordinates. -/
def Transformation.apply (t : Transformation) (pt : Point) : Point :=
  (t.matrix.m00 * pt.1 + t.matrix.m01 * pt.2 + t.matrix.m02,
   t.matrix.m10 * pt.1 + t.matrix.m11 * pt.2 + t.matrix.m12)

/-! ## Character (geometry.py, class Character) -/

/-- One glyph: horizontal advance and stroke list. -/
structure Character where
  cellwidth : ℚ
  strokes : List Stroke
deriving DecidableEq

/-- `Character.scaled(x, y)`: the cell width times `x`, and every stroke
point passed through a fresh `Transformation((x, y))`. -/
def Character.scaled (c : Character) (x y : ℚ) : ℚ × List Stroke :=
  let xfrm := Transformation.init (some (x, y)) none
  (c.cellwidth * x, c.strokes.map fun s => s.map fun pt => xfrm.apply pt)

/-- `Character.scaled` repackaged as a `Character`, the Python idiom
`Character(*ch.scaled(x, y))` used by the load-time fixups. -/
def Character.rescaled (c : Character) (x y : ℚ) : Character :=
  ⟨(c.scaled x y).1, (c.scaled x y).2⟩

/-! ## Font (geometry.py, class Font)

`Font.characters` is a Python dict from character code to `Character`.
We embed the dict as an association list where insertion conses in
front and lookup returns the first (most recent) binding. -/

/-- Dict lookup: first binding for the key wins (most recent insertion). -/
def dlookup (k : ℕ) : List (ℕ × Character) → Option Character
  | [] => none
  | (k', v) :: rest => if k' = k then some v else dlookup k rest

/-- Dict insertion/overwrite: cons the new binding in front. -/
def dinsert (k : ℕ) (v : Character) (d : List (ℕ × Character)) :
    List (ℕ × Character) :=
  (k, v) :: d

/-- The values of the dict, one per distinct key, most recent binding
for each key (Python `dict.values()`). -/
def dvalues : List (ℕ × Character) → List Character
  | [] => []
  | (k, v) :: rest => v :: dvalues (rest.filter fun p => p.1 ≠ k)
termination_by d => d.length
decreasing_by
  exact Nat.lt_succ_of_le (List.Sublist.length_le (List.filter_sublist rest))

/-- A font: the character dict and the cap height above the baseline. -/
structure Font where
  characters : List (ℕ × Character)
  height : ℚ
deriving DecidableEq

/-- One record of pre-parsed font data: `(code, cell width, strokes)`. -/
abbrev CharData := ℕ × ℚ × List Stroke

/-- The character dict built by the load loop: insert each record in
order, later records overwriting earlier ones. -/
def loadChars (chardata : List CharData) : List (ℕ × Character) :=
  chardata.foldl (fun d e => dinsert e.1 ⟨e.2.1, e.2.2⟩ d) []

/-- `max(p[1] for s in strokes for p in s)`: the largest y-coordinate of
a glyph's stroke points; `none` when there are no points (where Python
`max` of an empty generator raises). -/
def maxY (strokes : List Stroke) : Option ℚ :=
  ((strokes.map fun s => s.map fun p => p.2).flatten).max?

/-- The height fold of the load loop: start at 0, take the maximum with
every glyph's largest y; fails if any glyph has no stroke points. -/
def loadHeight (chardata : List CharData) : Option ℚ :=
  chardata.foldlM (fun h e => (maxY e.2.2).map fun m => max h m) 0

/-- The synthetic-space fixup: if code 32 is absent, insert a glyph with
empty strokes and cell width two thirds of the narrowest glyph; fails
when the dict is empty (Python `min([])` raises). -/
def spaceFix (chars : List (ℕ × Character)) : Option (List (ℕ × Character)) :=
  match dlookup 32 chars with
  | some _ => some chars
  | none =>
    match ((dvalues chars).map Character.cellwidth).min? with
    | none => none
    | some m => some (dinsert 32 ⟨m * 2 / 3, []⟩ chars)

/-- The slash and hyphen fixups closing `Font.load`: halve the slash
when it shares the digits' cell width, then shrink the hyphen to three
quarters; `none` models the `KeyError` Python raises when a looked-up
code is absent. -/
def slashHyphenFix (chars1 : List (ℕ × Character)) (height : ℚ) :
    Option Font :=
  match dlookup 47 chars1, dlookup 48 chars1 with
  | some c47, some c48 =>
    let chars2 :=
      if c47.cellwidth = c48.cellwidth then
        dinsert 47 (c47.rescaled (1/2) 1) chars1
      else chars1
    match dlookup 45 chars2 with
    | none => none
    | some c45 => some ⟨dinsert 45 (c45.rescaled (3/4) 1) chars2, height⟩
  | _, _ => none

/-- `Font.load`: build the dict and the height, then apply the three
fixups in order: space synthesis, slash halving (only when slash and
zero share a cell width), hyphen shrinking.  `none` models the
exceptions Python raises on the way (empty max/min, missing keys). -/
def Font.load (chardata : List CharData) : Option Font :=
  match loadHeight chardata, spaceFix (loadChars chardata) with
  | some height, some chars1 => slashHyphenFix chars1 height
  | _, _ => none

/-! ## Line (geometry.py, class Line)

Text is embedded as a list of character codes.  `re.split(GAP_RE, text)`
with `GAP_RE = "  +"` splits on maximal runs of two or more spaces. -/

/-- Worker for gap splitting: `cur` is the reversed current part; a run
of two or more spaces (code 32) ends the part and is consumed whole. -/
def splitGapsAux : List ℕ → List ℕ → List (List ℕ)
  | [], cur => [cur.reverse]
  | 32 :: 32 :: rest, cur =>
    cur.reverse :: splitGapsAux (rest.dropWhile fun c => c == 32) []
  | c :: rest, cur => splitGapsAux rest (c :: cur)
termination_by l _ => l.length
decreasing_by
  · exact Nat.lt_succ_of_lt (Nat.lt_succ_of_le
      (List.Sublist.length_le (List.dropWhile_sublist _)))
  · simp

/-- `re.split(GAP_RE, text)`: the list of parts between gap runs. -/
def splitGaps (text : List ℕ) : List (List ℕ) :=
  splitGapsAux text []

/-- The error kinds the program raises around line handling: the
`GeometryError(msg, text)` of `geometry.py`, Python's builtin
`ValueError`, `KeyError` (failed dict lookup) and `ZeroDivisionError`. -/
inductive CncError where
  | geometryError (msg : String) (text : List ℕ)
  | valueError (msg : String)
  | keyError (code : ℕ)
  | zeroDivisionError
deriving DecidableEq

/-- Whether an `Except` result is a raised `GeometryError`. -/
def isGeomError {α : Type} : Except CncError α → Bool
  | .error (.geometryError _ _) => true
  | _ => false

/-- `Line.MIN_GAP_WIDTH`: the fixed initial gap width. -/
def minGapWidth : ℚ := 2

/-- `Line.MAX_ASPECT_RATIO`. -/
def maxAspect : ℚ := 5/4

/-- `Line.MIN_ASPECT_RATIO`. -/
def minAspect : ℚ := 3/4

/-- One renderable text line after construction: the font's height, the
split parts (code lists), the glyphs resolved per part, and the mutable
gap width (state passed explicitly). -/
structure Line where
  font_height : ℚ
  parts : List (List ℕ)
  chars : List (List Character)
  gap_width : ℚ
deriving DecidableEq

/-- `Line.__init__(font, text)`: set `gap_width` to the minimum, split
the text on gap runs, reject more than two parts with a `ValueError`,
then resolve every code through the font dict (`KeyError` when a code
is absent). -/
def Line.make (font : Font) (text : List ℕ) : Except CncError Line :=
  let parts := splitGaps text
  if parts.length > 2 then
    .error (.valueError "Line must not have more than one gap")
  else
    match parts.mapM (fun p => p.mapM fun c =>
        match dlookup c font.characters with
        | some ch => Except.ok ch
        | none => Except.error (CncError.keyError c)) with
    | .error e => .error e
    | .ok chars => .ok ⟨font.height, parts, chars, minGapWidth⟩

/-- `Line.has_gap()`: exactly two parts. -/
def Line.hasGap (l : Line) : Bool := l.parts.length == 2

/-- `Line.all_characters`: the glyphs of both parts chained. -/
def Line.allCharacters (l : Line) : List Character := l.chars.flatten

/-- `Line.width()`: the sum of the cell widths of all glyphs (the gap
width is not included). -/
def Line.width (l : Line) : ℚ :=
  (l.allCharacters.map Character.cellwidth).sum

/-- `"  ".join(self.parts)`: the reconstructed text carried by
geometry errors. -/
def joinText (parts : List (List ℕ)) : List ℕ :=
  (parts.intersperse [32, 32]).flatten

/-- `Line.scaling(size)`: compute the scale factors; the returned `ℚ` is
the line's gap width after the call (the Python method mutates
`self.gap_width`).  Divisions by zero are the points where Python would
raise `ZeroDivisionError`, in evaluation order: `x / self.width()`,
`size[1] / self.font.height`, `sx / sy`. -/
def Line.scaling (l : Line) (size : ℚ × ℚ) : Except CncError ((ℚ × ℚ) × ℚ) :=
  let x := if l.hasGap then size.1 - l.gap_width else size.1
  if l.width = 0 then .error .zeroDivisionError
  else
    let sx := x / l.width
    if l.font_height = 0 then .error .zeroDivisionError
    else
      let sy := size.2 / l.font_height
      if sy = 0 then .error .zeroDivisionError
      else
        let aspect := sx / sy
        if aspect < minAspect then
          .error (.geometryError "Bad aspect ratio; font too narrow"
            (joinText l.parts))
        else if maxAspect < aspect then
          let sx2 := sy * maxAspect
          let gw := if l.hasGap then size.1 - l.width * sx2 else l.gap_width
          .ok ((sx2, sy), gw)
        else
          .ok ((sx, sy), l.gap_width)

/-- The inner glyph loop of `Line.galley`: emit `(cursor, scaled
strokes)` per glyph and advance the cursor by the scaled cell width;
returns the entries and the final cursor. -/
def galleyPart (sx sy : ℚ) : List Character → ℚ → List (ℚ × List Stroke) × ℚ
  | [], x => ([], x)
  | c :: rest, x =>
    let cw := (c.scaled sx sy).1
    let cs := (c.scaled sx sy).2
    let r := galleyPart sx sy rest (x + cw)
    ((x, cs) :: r.1, r.2)

/-- `Line.galley(sx, sy)`: walk the parts left to right with an x
cursor starting at 0; after each part, if the line has a gap, advance
the cursor additionally by `gap_width`. -/
def Line.galley (l : Line) (sx sy : ℚ) : List (ℚ × List Stroke) :=
  (l.chars.foldl (fun acc p =>
    let r := galleyPart sx sy p acc.2
    let x2 := if l.hasGap then r.2 + l.gap_width else r.2
    (acc.1 ++ r.1, x2)) (([] : List (ℚ × List Stroke)), (0 : ℚ))).1

/-! ## Toolpath emitter (grbl.py, class GrblCodeGenerator)

Each emitted output line is embedded as one `Instr`; the optional
rational on an instruction is the feed-rate suffix produced by the
memoizing helper `f` (absent exactly when Python appends `""`). -/

/-- One emitted output line of the G-code generator. -/
inductive Instr where
  | rapidZ (z : ℚ) (feed : Option ℚ)
  | lowerZ (z : ℚ) (feed : Option ℚ)
  | rapidXY (x y : ℚ) (feed : Option ℚ)
  | engraveXY (x y : ℚ) (feed : Option ℚ)
  | selectCS (cs : ℕ)
  | toolOn (s : ℚ)
  | toolOff
deriving DecidableEq

/-- Whether an instruction carries a feed-rate suffix. -/
def Instr.hasFeed : Instr → Bool
  | .rapidZ _ (some _) => true
  | .lowerZ _ (some _) => true
  | .rapidXY _ _ (some _) => true
  | .engraveXY _ _ (some _) => true
  | _ => false

/-- The generator's configuration and mutable state
(`GrblCodeGenerator.__init__`). -/
structure GrblState where
  coord_sys : ℕ
  z_move : ℚ
  z_clear : ℚ
  z_engrave : ℚ
  f_rapid : ℚ
  f_interpolate : ℚ
  s_engrave : ℚ
  is_clear : Bool
  feed : ℚ
  last_pt : Option Point
deriving DecidableEq

/-- A freshly constructed generator with all defaults
(`coord_sys=54, z_move=5.0, z_clear=0.25, z_engrave=-0.075,
f_rapid=100, f_interpolate=50, s_engrave=500`; lift state clear, feed
memo `-1`, no last point). -/
def initState : GrblState :=
  ⟨54, 5, 1/4, -3/40, 100, 50, 500, true, -1, none⟩

/-- `GrblCodeGenerator.f(feed)`: return a feed suffix and record the
feed only when it differs from the memoized one. -/
def fsuffix (s : GrblState) (feed : ℚ) : Option ℚ × GrblState :=
  if feed ≠ s.feed then (some feed, { s with feed := feed }) else (none, s)

/-- `away()`: rapid to the travel height unconditionally and become
clear. -/
def GrblState.away (s : GrblState) : List Instr × GrblState :=
  let r := fsuffix s s.f_rapid
  ([.rapidZ s.z_move r.1], { r.2 with is_clear := true })

/-- `up()`: rapid to the clearance height, suppressed while already
clear. -/
def GrblState.up (s : GrblState) : List Instr × GrblState :=
  if s.is_clear then ([], s)
  else
    let r := fsuffix s s.f_rapid
    ([.rapidZ s.z_clear r.1], { r.2 with is_clear := true })

/-- `down()`: interpolate to the engrave depth with the interpolation
feed, only on the clear-to-down transition. -/
def GrblState.down (s : GrblState) : List Instr × GrblState :=
  if s.is_clear then
    let r := fsuffix s s.f_interpolate
    ([.lowerZ s.z_engrave r.1], { r.2 with is_clear := false })
  else ([], s)

/-- `rapid(pt)`: lift if needed, then a rapid XY move (never carrying a
feed suffix). -/
def GrblState.rapid (s : GrblState) (pt : Point) : List Instr × GrblState :=
  let r := s.up
  (r.1 ++ [.rapidXY pt.1 pt.2 none], r.2)

/-- `engrave(pt)`: lower if clear, then an interpolated XY move with the
feed suffix the memoizing helper yields afterwards. -/
def GrblState.engrave (s : GrblState) (pt : Point) : List Instr × GrblState :=
  let r := if s.is_clear then s.down else ([], s)
  let f := fsuffix r.2 r.2.f_interpolate
  (r.1 ++ [.engraveXY pt.1 pt.2 f.1], f.2)

/-- The `for pt in points[1:]` loop of `polyline`: engrave each point in
order, threading the state. -/
def GrblState.engraveList (s : GrblState) (pts : List Point) :
    List Instr × GrblState :=
  pts.foldl (fun acc pt =>
    let r := acc.2.engrave pt
    (acc.1 ++ r.1, r.2)) (([] : List Instr), s)

/-- `polyline(points)`: no-op on an empty list; rapid-reposition to the
first point when there is no `last_pt` or it differs from the first
point; then engrave the remaining points.  (The source never assigns
`last_pt` after construction.) -/
def GrblState.polyline (s : GrblState) (pts : List Point) :
    List Instr × GrblState :=
  match pts with
  | [] => ([], s)
  | p0 :: rest =>
    let r1 := if s.last_pt = none ∨ s.last_pt ≠ some p0
      then s.rapid p0 else ([], s)
    let r2 := r1.2.engraveList rest
    (r1.1 ++ r2.1, r2.2)

/-- `start()`: select the coordinate system, move away (always emitting
the travel-height line), rapid to the origin, switch the tool on. -/
def GrblState.start (s : GrblState) : List Instr × GrblState :=
  let r := s.away
  let f := fsuffix r.2 r.2.f_rapid
  (Instr.selectCS s.coord_sys :: r.1 ++ [.rapidXY 0 0 f.1, .toolOn s.s_engrave],
   f.2)

/-- `stop()`: move away unconditionally and switch the tool off. -/
def GrblState.stop (s : GrblState) : List Instr × GrblState :=
  let r := s.away
  (r.1 ++ [.toolOff], r.2)

/-! ## Concrete inputs used to exercise the definitions -/

/-- The plus glyph of the test font (`test.chr`): cell width 26, a
vertical and a horizontal bar. -/
def cplus : Character := ⟨26, [[(13, 18), (13, 0)], [(4, 9), (22, 9)]]⟩

/-- A small font holding only the plus glyph, cap height 18. -/
def fontW : Font := ⟨[(43, cplus)], 18⟩

/-- Pre-parsed font data without a space glyph, holding slash, zero and
hyphen (the codes `Font.load` needs). -/
def cdW : List CharData :=
  [(47, 5, [[(0, 0), (1, 2)]]), (48, 6, [[(0, 0), (1, 2)]]),
   (45, 4, [[(0, 1), (1, 1)]])]

/-- The font `Font.load` builds from `cdW`. -/
def fontLoadedW : Font := (Font.load cdW).getD ⟨[], 0⟩

/-- A gapless one-glyph line too wide for its box (glyph width 40, font
height 10). -/
def lineNarrowW : Line := ⟨10, [[97]], [[⟨40, []⟩]], 2⟩

/-- A two-part line with a gap, total glyph width 20, font height 10. -/
def lineClampW : Line := ⟨10, [[97], [98]], [[⟨10, []⟩], [⟨10, []⟩]], 2⟩

/-- A gapless line with one glyph of width 10 and gap width 7. -/
def lineNoGapW : Line := ⟨10, [[97]], [[⟨10, []⟩]], 7⟩

/-- The line built from the empty string over `fontW`: one empty part,
no glyphs, total width 0. -/
def emptyLineW : Line := ⟨18, [[]], [[]], 2⟩

/-- The line built from `"+   +"` (three consecutive spaces) over
`fontW`: the space run is one gap delimiter, giving two parts. -/
def lineGapW : Line := ⟨18, [[43], [43]], [[cplus], [cplus]], 2⟩

/-! ## Helper lemmas about the dict operations and the load fixups -/

/-- Looking a key up past an insertion under a different key reads
through to the older dict. -/
theorem dlookup_dinsert_ne (k k' : ℕ) (v : Character)
    (d : List (ℕ × Character)) (h : k' ≠ k) :
    dlookup k (dinsert k' v d) = dlookup k d := by
  simp [dlookup, dinsert, h]

/-- Folding insertions whose keys all differ from `k` leaves the lookup
of `k` unchanged. -/
theorem dlookup_foldl_absent (k : ℕ) (cd : List CharData)
    (d : List (ℕ × Character)) (h : ∀ e ∈ cd, e.1 ≠ k) :
    dlookup k (cd.foldl (fun d e => dinsert e.1 ⟨e.2.1, e.2.2⟩ d) d) =
      dlookup k d := by
  induction cd generalizing d with
  | nil => rfl
  | cons e rest ih =>
    simp only [List.foldl_cons]
    rw [ih _ fun e' he' => h e' (List.mem_cons_of_mem _ he')]
    exact dlookup_dinsert_ne _ _ _ _ (h e (List.mem_cons_self _ _))

/-- After a successful space fixup, code 32 is present. -/
theorem spaceFix_isSome (chars chars1 : List (ℕ × Character))
    (h : spaceFix chars = some chars1) :
    (dlookup 32 chars1).isSome = true := by
  unfold spaceFix at h
  cases hc : dlookup 32 chars with
  | some c =>
    rw [hc] at h
    injection h with h
    subst h
    simp [hc]
  | none =>
    rw [hc] at h
    cases hm : ((dvalues chars).map Character.cellwidth).min? with
    | none => rw [hm] at h; cases h
    | some m =>
      rw [hm] at h
      injection h with h
      subst h
      simp [dlookup, dinsert]

/-- When code 32 was absent, the space fixup inserts the synthetic
glyph: empty strokes, two thirds of the minimum cell width. -/
theorem spaceFix_absent (chars chars1 : List (ℕ × Character))
    (h0 : dlookup 32 chars = none) (h : spaceFix chars = some chars1) :
    ∃ m, ((dvalues chars).map Character.cellwidth).min? = some m ∧
      dlookup 32 chars1 = some ⟨m * 2 / 3, []⟩ := by
  unfold spaceFix at h
  rw [h0] at h
  cases hm : ((dvalues chars).map Character.cellwidth).min? with
  | none => rw [hm] at h; cases h
  | some m =>
    rw [hm] at h
    injection h with h
    subst h
    exact ⟨m, rfl, by simp [dlookup, dinsert]⟩



/-- After a successful `slashHyphenFix`, the lookup of code 32 reads
through the hyphen (and possibly slash) insertions unchanged. -/
theorem slashHyphenFix_lookup32 (chars1 : List (ℕ × Character)) (height : ℚ)
    (f : Font) (h : slashHyphenFix chars1 height = some f) :
    dlookup 32 f.characters = dlookup 32 chars1 := by
  unfold slashHyphenFix at h
  cases h47 : dlookup 47 chars1 with
  | none => rw [h47] at h; cases h
  | some c47 =>
  rw [h47] at h
  cases h48 : dlookup 48 chars1 with
  | none => rw [h48] at h; cases h
  | some c48 =>
  rw [h48] at h
  simp only [] at h
  cases h45 : dlookup 45 (if c47.cellwidth = c48.cellwidth then
      dinsert 47 (c47.rescaled (1/2) 1) chars1 else chars1) with
  | none => rw [h45] at h; cases h
  | some c45 =>
  rw [h45] at h
  injection h with h
  subst h
  rw [dlookup_dinsert_ne 32 45 _ _ (by norm_num)]
  by_cases hc : c47.cellwidth = c48.cellwidth
  · rw [if_pos hc, dlookup_dinsert_ne 32 47 _ _ (by norm_num)]
  · rw [if_neg hc]

/-- Unfolding of `Line.scaling` once the three divisors are known to be
nonzero (no `ZeroDivisionError` branch taken). -/
theorem scaling_eq (l : Line) (size : ℚ × ℚ) (hw : l.width ≠ 0)
    (hh : l.font_height ≠ 0) (hsy : size.2 / l.font_height ≠ 0) :
    l.scaling size =
      if (if l.hasGap then size.1 - l.gap_width else size.1) / l.width /
          (size.2 / l.font_height) < minAspect then
        .error (.geometryError "Bad aspect ratio; font too narrow"
          (joinText l.parts))
      else if maxAspect < (if l.hasGap then size.1 - l.gap_width else size.1) /
          l.width / (size.2 / l.font_height) then
        .ok ((size.2 / l.font_height * maxAspect, size.2 / l.font_height),
          if l.hasGap then
            size.1 - l.width * (size.2 / l.font_height * maxAspect)
          else l.gap_width)
      else
        .ok (((if l.hasGap then size.1 - l.gap_width else size.1) / l.width,
          size.2 / l.font_height), l.gap_width) := by
  simp only [Line.scaling, if_neg hw, if_neg hh, if_neg hsy]

/-- Changing only `gap_width` leaves `Line.width` unchanged. -/
theorem update_width (l : Line) (g : ℚ) :
    ({ l with gap_width := g } : Line).width = l.width := rfl

/-- Changing only `gap_width` leaves `Line.hasGap` unchanged. -/
theorem update_hasGap (l : Line) (g : ℚ) :
    ({ l with gap_width := g } : Line).hasGap = l.hasGap := rfl

/-- Changing only `gap_width` leaves the font height unchanged. -/
theorem update_font_height (l : Line) (g : ℚ) :
    ({ l with gap_width := g } : Line).font_height = l.font_height := rfl

/-- Changing only `gap_width` leaves the parts unchanged. -/
theorem update_parts (l : Line) (g : ℚ) :
    ({ l with gap_width := g } : Line).parts = l.parts := rfl

/-- Changing only `gap_width` leaves the glyph lists unchanged. -/
theorem update_chars (l : Line) (g : ℚ) :
    ({ l with gap_width := g } : Line).chars = l.chars := rfl

/-- Reading `gap_width` after setting it yields the set value. -/
theorem update_gap_width (l : Line) (g : ℚ) :
    ({ l with gap_width := g } : Line).gap_width = g := rfl

/-! ## Claim theorems -/

/-- C1 (counterexample): from a fresh default emitter, `polyline` on
`[(0,0), (5,5)]` emits exactly three instructions, but the third — the
interpolated move to (5,5) — carries NO feed-rate suffix: the
interpolation feed was already emitted on the lower directive and is
memoized, contradicting the claim that the move carries a suffix. -/
theorem polyline_scenario_feed_suffix_cex :
    (initState.polyline [(0, 0), (5, 5)]).1 =
      [.rapidXY 0 0 none, .lowerZ (-3/40) (some 50), .engraveXY 5 5 none] ∧
    Instr.hasFeed (.engraveXY 5 5 none) = false := by
  constructor
  · norm_num [GrblState.polyline, GrblState.engraveList, GrblState.engrave,
      GrblState.down, GrblState.rapid, GrblState.up, fsuffix, initState]
  · rfl

/-- C1 (amended): from a fresh default emitter, `polyline` on
`[(0,0), (5,5)]` emits exactly three instructions in order: a rapid XY
move to (0,0) with no preceding lift line, a lower directive carrying
the interpolation feed 50, and an interpolated XY move to (5,5) with no
feed-rate suffix. -/
theorem polyline_scenario_emits_three :
    (initState.polyline [(0, 0), (5, 5)]).1 =
      [.rapidXY 0 0 none, .lowerZ (-3/40) (some 50), .engraveXY 5 5 none] := by
  norm_num [GrblState.polyline, GrblState.engraveList, GrblState.engrave,
    GrblState.down, GrblState.rapid, GrblState.up, fsuffix, initState]

/-- C2 (the code at the failing input): after `polyline [(0,0), (5,5)]`
the emitter's `last_pt` is still `none` — the source never assigns it —
so a second `polyline` starting at the previous end point (5,5) still
emits a rapid reposition: a lift to the clearance height with the rapid
feed, then a rapid XY move to (5,5). -/
theorem polyline_never_updates_last_pt :
    (initState.polyline [(0, 0), (5, 5)]).2.last_pt = none ∧
    ((initState.polyline [(0, 0), (5, 5)]).2.polyline
        [(5, 5), (10, 10)]).1.take 2 =
      [.rapidZ (1/4) (some 100), .rapidXY 5 5 none] := by
  constructor
  · norm_num [GrblState.polyline, GrblState.engraveList, GrblState.engrave,
      GrblState.down, GrblState.rapid, GrblState.up, fsuffix, initState]
  · norm_num [GrblState.polyline, GrblState.engraveList, GrblState.engrave,
      GrblState.down, GrblState.rapid, GrblState.up, fsuffix, initState]

/-- C5 (counterexample): a text with two separate gap runs splits into
three parts and `Line.make` fails with Python's builtin `ValueError`
carrying only the fixed message — not with the geometry-error kind, and
not carrying the reconstructed text. -/
theorem double_gap_valueError_cex :
    Line.make fontW [43, 32, 32, 43, 32, 32, 43] =
      .error (.valueError "Line must not have more than one gap") ∧
    isGeomError (Line.make fontW [43, 32, 32, 43, 32, 32, 43]) = false := by
  constructor
  · norm_num [Line.make, splitGaps, splitGapsAux]
  · norm_num [Line.make, splitGaps, splitGapsAux, isGeomError]

/-- C5 (amended): constructing a Line from a text whose split on runs
of two-or-more consecutive spaces yields more than two parts fails with
a `ValueError` carrying the fixed message "Line must not have more than
one gap" — not a geometry error, and without the offending text. -/
theorem double_gap_raises_valueError (f : Font) (text : List ℕ)
    (h : 2 < (splitGaps text).length) :
    Line.make f text =
      .error (.valueError "Line must not have more than one gap") := by
  simp [Line.make, h]

/-- C5 (witness): the amended claim applied to the concrete double-gap
text over the concrete font. -/
theorem double_gap_raises_valueError_witness :
    Line.make fontW [43, 32, 32, 43, 32, 32, 43] =
      .error (.valueError "Line must not have more than one gap") :=
  double_gap_raises_valueError fontW [43, 32, 32, 43, 32, 32, 43]
    (by norm_num [splitGaps, splitGapsAux])

/-- C6 (counterexample): a text with three consecutive spaces matches
`GAP_RE = "  +"` as a SINGLE gap run, so construction succeeds — it
does not fail with a geometry-kind error (nor with any error). -/
theorem triple_space_single_gap_cex :
    Line.make fontW [43, 32, 32, 32, 43] = .ok lineGapW ∧
    isGeomError (Line.make fontW [43, 32, 32, 32, 43]) = false := by
  constructor
  · norm_num [Line.make, splitGaps, splitGapsAux, fontW, dlookup, lineGapW,
      minGapWidth, cplus, List.mapM.loop, Except.bind, Bind.bind,
      Except.instMonad, Except.pure]
  · norm_num [Line.make, splitGaps, splitGapsAux, fontW, dlookup,
      minGapWidth, cplus, List.mapM.loop, Except.bind, Bind.bind,
      Except.instMonad, Except.pure, isGeomError]

/-- C6 (amended): constructing a Line from a text containing three
consecutive spaces succeeds, the whole run acting as the single gap
delimiter: the resulting line has two parts and a gap. -/
theorem triple_space_line_ok :
    Line.make fontW [43, 32, 32, 32, 43] = .ok lineGapW ∧
    lineGapW.hasGap = true ∧ lineGapW.parts = [[43], [43]] := by
  refine ⟨?_, rfl, rfl⟩
  norm_num [Line.make, splitGaps, splitGapsAux, fontW, dlookup, lineGapW,
    minGapWidth, cplus, List.mapM.loop, Except.bind, Bind.bind,
    Except.instMonad, Except.pure]

/-- C7 (counterexample): constructing a `Transformation` with scale
(2,1) and translate (1,0) maps (0,0) to (1,0), while calling
`scale(2,1)` then `translate(1,0)` from identity maps (0,0) to (2,0) —
the chained calls scale the translation, so the claimed equivalence
with scale-then-translate fails. -/
theorem construction_vs_scale_translate_cex :
    (Transformation.init (some (2, 1)) (some (1, 0))).apply (0, 0) ≠
      (((Transformation.init none none).scale 2 1).translate 1 0).apply
        (0, 0) := by
  norm_num [Transformation.init, Transformation.apply, Transformation.scale,
    Transformation.translate, Mat3.identity, Mat3.mul]

/-- C7 (amended): constructing a `Transformation` with both vectors is
equivalent to calling `translate(tx, ty)` then `scale(sx, sy)` from
identity, and the construction-supplied scaling does not scale the
construction-supplied translation: the constructed transform maps
`(px, py)` to `(sx*px + tx, sy*py + ty)`. -/
theorem construction_translate_then_scale (sx sy tx ty px py : ℚ) :
    Transformation.init (some (sx, sy)) (some (tx, ty)) =
      ((Transformation.init none none).translate tx ty).scale sx sy ∧
    (Transformation.init (some (sx, sy)) (some (tx, ty))).apply (px, py) =
      (sx * px + tx, sy * py + ty) := by
  constructor
  · simp only [Transformation.init, Transformation.translate,
      Transformation.scale, Mat3.identity, Mat3.mul, Transformation.mk.injEq,
      Mat3.mk.injEq]
    norm_num
  · simp only [Transformation.init, Transformation.apply, Mat3.identity,
      Prod.mk.injEq]
    constructor
    · ring
    · ring


/-- C3: given a target size with positive dimensions and a line with
positive total glyph width and positive font height, `Line.scaling`
fails with the geometry error "Bad aspect ratio; font too narrow"
carrying the two-space-joined reconstructed text whenever the computed
`sx / sy` is below `MIN_ASPECT_RATIO`, and whenever it returns normally
the returned pair satisfies `sx / sy ≤ MAX_ASPECT_RATIO`. -/
theorem scaling_aspect_bounds (l : Line) (size : ℚ × ℚ)
    (hw : 0 < l.width) (hh : 0 < l.font_height)
    (h1 : 0 < size.1) (h2 : 0 < size.2) :
    ((((if l.hasGap then size.1 - l.gap_width else size.1) / l.width) /
        (size.2 / l.font_height)) < minAspect →
      l.scaling size = .error (.geometryError
        "Bad aspect ratio; font too narrow" (joinText l.parts))) ∧
    (∀ sx sy gw, l.scaling size = .ok ((sx, sy), gw) →
      sx / sy ≤ maxAspect) := by
  have hw' : l.width ≠ 0 := ne_of_gt hw
  have hh' : l.font_height ≠ 0 := ne_of_gt hh
  have hsy : size.2 / l.font_height ≠ 0 := div_ne_zero (ne_of_gt h2) hh'
  rw [scaling_eq l size hw' hh' hsy]
  set a := (if l.hasGap then size.1 - l.gap_width else size.1) / l.width /
    (size.2 / l.font_height) with ha
  constructor
  · intro hlt
    rw [if_pos hlt]
  · intro sx sy gw hok
    by_cases hmin : a < minAspect
    · rw [if_pos hmin] at hok
      simp at hok
    · rw [if_neg hmin] at hok
      by_cases hmax : maxAspect < a
      · rw [if_pos hmax, Except.ok.injEq, Prod.mk.injEq, Prod.mk.injEq] at hok
        obtain ⟨⟨hsx, hsy2⟩, -⟩ := hok
        subst hsx
        subst hsy2
        rw [mul_comm, mul_div_assoc, div_self hsy, mul_one]
      · rw [if_neg hmax, Except.ok.injEq, Prod.mk.injEq, Prod.mk.injEq] at hok
        obtain ⟨⟨hsx, hsy2⟩, -⟩ := hok
        subst hsx
        subst hsy2
        rw [← ha]
        exact le_of_not_lt hmax

/-- C3 (witness): a one-glyph line of width 40 at font height 10 in a
10×10 box has aspect 1/4 < 3/4 and fails with the geometry error
carrying the reconstructed text. -/
theorem scaling_aspect_bounds_witness :
    lineNarrowW.scaling (10, 10) = .error (.geometryError
      "Bad aspect ratio; font too narrow" [97]) := by
  have h := (scaling_aspect_bounds lineNarrowW (10, 10)
    (by norm_num [Line.width, Line.allCharacters, lineNarrowW])
    (by norm_num [lineNarrowW]) (by norm_num) (by norm_num)).1
    (by norm_num [Line.hasGap, Line.width, Line.allCharacters, lineNarrowW,
      minAspect])
  have hj : joinText lineNarrowW.parts = [97] := by
    norm_num [joinText, lineNarrowW, List.intersperse]
  rw [hj] at h
  exact h

/-- C4: for a line with a gap, whenever `Line.scaling` takes the clamp
branch (pre-clamp aspect above `MAX_ASPECT_RATIO`), the gap width it
returns makes the clamped text plus the gap exactly fill the requested
width: `Line.width() * sx + gap_width = target width`. -/
theorem scaling_clamp_fills_width (l : Line) (size : ℚ × ℚ) (sx sy gw : ℚ)
    (hg : l.hasGap = true)
    (hclamp : maxAspect <
      ((size.1 - l.gap_width) / l.width) / (size.2 / l.font_height))
    (hok : l.scaling size = .ok ((sx, sy), gw)) :
    l.width * sx + gw = size.1 := by
  have hw' : l.width ≠ 0 := by
    intro h0
    simp [Line.scaling, h0] at hok
  have hh' : l.font_height ≠ 0 := by
    intro h0
    simp [Line.scaling, hw', h0] at hok
  have hsy : size.2 / l.font_height ≠ 0 := by
    intro h0
    simp [Line.scaling, hw', hh', h0] at hok
  rw [scaling_eq l size hw' hh' hsy] at hok
  rw [hg] at hok
  simp only [if_true] at hok
  have hmin : ¬ ((size.1 - l.gap_width) / l.width /
      (size.2 / l.font_height) < minAspect) := by
    intro hcon
    have hcc := lt_trans hclamp hcon
    norm_num [maxAspect, minAspect] at hcc
  rw [if_neg hmin, if_pos hclamp, Except.ok.injEq, Prod.mk.injEq,
    Prod.mk.injEq] at hok
  obtain ⟨⟨hsx, -⟩, hgw⟩ := hok
  subst hsx
  subst hgw
  ring

/-- C4 (witness): a two-part line of glyph width 20 and gap width 2 at
font height 10 fit into a 50×10 box has pre-clamp aspect 12/5 > 5/4;
the clamp returns sx = 5/4 and gap width 25, and 20·(5/4) + 25 = 50. -/
theorem scaling_clamp_fills_width_witness :
    lineClampW.width * (5/4) + 25 = 50 := by
  have hok : lineClampW.scaling (50, 10) = .ok ((5/4, 1), 25) := by
    norm_num [Line.scaling, lineClampW, Line.hasGap, Line.width,
      Line.allCharacters, minAspect, maxAspect]
  exact scaling_clamp_fills_width lineClampW (50, 10) (5/4) 1 25 rfl
    (by norm_num [lineClampW, Line.width, Line.allCharacters, maxAspect]) hok

/-- C8: whenever `Font.load` returns a font, a glyph for code 32 exists
in its character map; and if code 32 was absent from the source data,
the space glyph has empty strokes and cell width two thirds of the
minimum cell width over the glyphs loaded from the source. -/
theorem load_space_glyph_exists (cd : List CharData) (f : Font)
    (h : Font.load cd = some f) :
    (dlookup 32 f.characters).isSome = true ∧
    ((∀ e ∈ cd, e.1 ≠ 32) →
      ∃ m, ((dvalues (loadChars cd)).map Character.cellwidth).min? = some m ∧
        dlookup 32 f.characters = some ⟨m * 2 / 3, []⟩) := by
  unfold Font.load at h
  cases hh : loadHeight cd with
  | none => rw [hh] at h; cases h
  | some height =>
  rw [hh] at h
  cases hs : spaceFix (loadChars cd) with
  | none => rw [hs] at h; cases h
  | some chars1 =>
  rw [hs] at h
  have l32 : dlookup 32 f.characters = dlookup 32 chars1 :=
    slashHyphenFix_lookup32 chars1 height f h
  constructor
  · rw [l32]
    exact spaceFix_isSome _ _ hs
  · intro habs
    have h0 : dlookup 32 (loadChars cd) = none := by
      unfold loadChars
      rw [dlookup_foldl_absent 32 cd [] habs]
      rfl
    obtain ⟨m, hm, hl⟩ := spaceFix_absent _ _ h0 hs
    exact ⟨m, hm, by rw [l32]; exact hl⟩

/-- C8 (witness): loading the space-less source `cdW` (minimum cell
width 4) yields a font whose space glyph has cell width 4·2/3 and no
strokes. -/
theorem load_space_glyph_exists_witness :
    dlookup 32 fontLoadedW.characters = some ⟨4 * 2 / 3, []⟩ := by
  have hload : Font.load cdW = some fontLoadedW := by
    norm_num [Font.load, slashHyphenFix, cdW, fontLoadedW, loadChars,
      loadHeight, spaceFix, dvalues, dlookup, dinsert, maxY,
      Character.rescaled, Character.scaled, Transformation.init,
      Transformation.apply, Mat3.identity, List.min?, List.max?, Option.map]
  obtain ⟨m, hm, hl⟩ := (load_space_glyph_exists cdW fontLoadedW hload).2
    (by norm_num [cdW])
  have hmin : ((dvalues (loadChars cdW)).map Character.cellwidth).min? =
      some 4 := by
    norm_num [cdW, loadChars, dvalues, dinsert, dlookup, List.min?, min_def]
  rw [hmin] at hm
  injection hm with hm
  rw [← hm] at hl
  exact hl

/-- C9: for a line without a gap, neither `scaling` nor `galley` reads
or mutates `gap_width`: replacing `gap_width` by any value changes
nothing in the result except that the gap width passed through is the
line's own (unchanged) value, and `galley` is identical. -/
theorem no_gap_ignores_gap_width (l : Line) (size : ℚ × ℚ) (g sx sy : ℚ)
    (h : l.hasGap = false) :
    ({ l with gap_width := g } : Line).scaling size =
      (l.scaling size).map (fun r => (r.1, g)) ∧
    ({ l with gap_width := g } : Line).galley sx sy = l.galley sx sy := by
  constructor
  · simp only [Line.scaling, update_width, update_font_height, update_hasGap,
      update_parts, update_gap_width, h, Bool.false_eq_true, if_false]
    split
    · rfl
    · split
      · rfl
      · split
        · rfl
        · split
          · rfl
          · split
            · rfl
            · rfl
  · simp only [Line.galley, update_chars, update_hasGap, update_gap_width, h,
      Bool.false_eq_true, if_false]

/-- C9 (witness): the gapless one-glyph line with its gap width
replaced by 99 scales and lays out exactly as the original. -/
theorem no_gap_ignores_gap_width_witness :
    ({ lineNoGapW with gap_width := 99 } : Line).scaling (20, 10) =
      (lineNoGapW.scaling (20, 10)).map (fun r => (r.1, 99)) ∧
    ({ lineNoGapW with gap_width := 99 } : Line).galley 1 1 =
      lineNoGapW.galley 1 1 :=
  no_gap_ignores_gap_width lineNoGapW (20, 10) 99 1 1 rfl

/-- C10: for a line of total glyph width zero, `Line.scaling` hits the
unguarded division `sx = x / Line.width()` and raises
`ZeroDivisionError` — not a geometry error. -/
theorem zero_width_division (l : Line) (size : ℚ × ℚ) (h : l.width = 0) :
    l.scaling size = .error .zeroDivisionError ∧
    isGeomError (l.scaling size) = false := by
  have h1 : l.scaling size = .error .zeroDivisionError := by
    simp [Line.scaling, h]
  exact ⟨h1, by rw [h1]; rfl⟩

/-- C10 (witness): the empty string is accepted by `Line.make` and
yields a width-0 line whose scaling raises `ZeroDivisionError`. -/
theorem zero_width_division_witness :
    Line.make fontW [] = .ok emptyLineW ∧
    emptyLineW.scaling (23, 5/2) = .error .zeroDivisionError := by
  constructor
  · norm_num [Line.make, splitGaps, splitGapsAux, fontW, emptyLineW,
      minGapWidth, List.mapM.loop, Except.bind, Bind.bind, Except.instMonad,
      Except.pure]
  · exact (zero_width_division emptyLineW (23, 5/2)
      (by norm_num [Line.width, Line.allCharacters, emptyLineW])).1

end Cnctext
